import Mathlib

/-!
Shallow embedding of `src/exercise-01/agent.py`, the "LLM Weather Agent":
a TTL cache with an injectable clock (`InMemoryTTLCache`), an LLM client
with a retry/backoff loop (`LLMClient.chat`), a weather client with payload
validation (`WeatherClient.fetch`), and the orchestrator (`WeatherAgent.answer`).

Modelling conventions:
* JSON-decoded Python values are `PyVal` (numbers as `Int`); Python
  exceptions are `Exc`; time is `ℚ`.
* Each call that samples the injected clock takes the sampled time as an
  explicit `now` argument (one sample per modelled call).
* Network collaborators are environments: the outcome of each HTTP request
  is a parameter of the function that would perform it.
-/

namespace Agent

/-- JSON-decoded Python value (the result of `resp.json()`).  Numbers are
modelled as integers; nothing considered here depends on fractional values. -/
inductive PyVal where
  | null
  | bool (b : Bool)
  | num (n : Int)
  | str (s : String)
  | arr (elems : List PyVal)
  | obj (items : List (String × PyVal))

/-- Identity of a Python exception, restricted to the classes the module can
raise: `requests.exceptions.Timeout` / `ConnectionError` (the transport
errors), `requests.exceptions.HTTPError` (raised by `raise_for_status`),
`ValueError` / `KeyError` (the payload errors), `IndexError` / `TypeError`
(uncaught subscript failures), and `RuntimeError` (exhausted retries). -/
inductive Exc where
  | timeoutErr
  | connectionErr
  | httpStatusErr (status : Nat)
  | valueErr (msg : String)
  | keyErr (k : String)
  | indexErr
  | typeErr
  | runtimeErr (msg : String)
deriving DecidableEq

/-- First-match association lookup: Python dict access on a JSON object
(JSON objects decode to dicts with string keys). -/
def lookup : List (String × PyVal) → String → Option PyVal
  | [], _ => none
  | (k, v) :: rest, key => if k = key then some v else lookup rest key

/-- Python subscripting `v[k]` with a string key: a dict yields the entry or
raises `KeyError`; a list, a string, or a non-subscriptable value raises
`TypeError`. -/
def subscriptKey (v : PyVal) (k : String) : Except Exc PyVal :=
  match v with
  | .obj items =>
    match lookup items k with
    | some x => .ok x
    | none => .error (.keyErr k)
  | _ => .error .typeErr

/-- Python subscripting `v[0]`: a list yields its head or raises `IndexError`;
a string yields its first character as a one-character string or raises
`IndexError`; a JSON-decoded dict has no integer keys, so it raises
`KeyError`; anything else raises `TypeError`. -/
def subscriptZero (v : PyVal) : Except Exc PyVal :=
  match v with
  | .arr [] => .error .indexErr
  | .arr (x :: _) => .ok x
  | .str s =>
    match s.data with
    | [] => .error .indexErr
    | c :: _ => .ok (.str (String.mk [c]))
  | .obj _ => .error (.keyErr ("0"))
  | _ => .error .typeErr

/-- Wrap a string in single quotes, as Python `repr` renders strings and
dict keys. -/
def quoteStr (s : String) : String :=
  String.mk (Char.ofNat 39 :: (s.data ++ [Char.ofNat 39]))

mutual

/-- Python `repr` of a JSON-decoded value, used by `str()` on containers. -/
def pyRepr : PyVal → String
  | .null => "None"
  | .bool true => "True"
  | .bool false => "False"
  | .num n => toString n
  | .str s => quoteStr s
  | .arr elems => "[" ++ String.intercalate (", ") (pyReprList elems) ++ "]"
  | .obj items => "\x7b" ++ String.intercalate (", ") (pyReprItems items) ++ "\x7d"

/-- Helper of `pyRepr` for list elements. -/
def pyReprList : List PyVal → List String
  | [] => []
  | x :: xs => pyRepr x :: pyReprList xs

/-- Helper of `pyRepr` for dict items. -/
def pyReprItems : List (String × PyVal) → List String
  | [] => []
  | (k, v) :: rest => (quoteStr k ++ ": " ++ pyRepr v) :: pyReprItems rest

end

/-- Python `str()` applied to a JSON-decoded value: the identity on strings,
`repr`-style rendering otherwise (`str(5) = "5"`, `str(None) = "None"`, …).
Used by `return str(content)` and by the prompt f-string. -/
def pyStr : PyVal → String
  | .str s => s
  | .null => pyRepr .null
  | .bool b => pyRepr (.bool b)
  | .num n => pyRepr (.num n)
  | .arr elems => pyRepr (.arr elems)
  | .obj items => pyRepr (.obj items)

/-- Python `str.strip()`: drop leading and trailing whitespace. -/
def pyStrip (s : String) : String :=
  String.mk (((s.data.dropWhile Char.isWhitespace).reverse.dropWhile Char.isWhitespace).reverse)

/-- Model of the chained subscript `data["choices"][0]["message"]["content"]`
of `LLMClient.chat` (agent.py line 159) under Python subscript semantics. -/
def extractContent (data : PyVal) : Except Exc PyVal :=
  match subscriptKey data ("choices") with
  | .error e => .error e
  | .ok choices =>
    match subscriptZero choices with
    | .error e => .error e
    | .ok c0 =>
      match subscriptKey c0 ("message") with
      | .error e => .error e
      | .ok msg => subscriptKey msg ("content")

/-- View a `PyVal` as a JSON object's item list. -/
def asObj : PyVal → Option (List (String × PyVal))
  | .obj items => some items
  | _ => none

/-- View a `PyVal` as a JSON array's element list. -/
def asArr : PyVal → Option (List PyVal)
  | .arr elems => some elems
  | _ => none

/-- Modelled from the spec's payload-shape words: the `content` value of a
body that is an object containing a non-empty list `choices` whose first
element is an object with a `message` object that has a `content` entry;
`none` when the body does not have that shape. -/
def specContent (body : PyVal) : Option PyVal :=
  (asObj body).bind fun items =>
    (lookup items ("choices")).bind fun choices =>
      (asArr choices).bind fun elems =>
        elems.head?.bind fun c0 =>
          (asObj c0).bind fun citems =>
            (lookup citems ("message")).bind fun msg =>
              (asObj msg).bind fun mitems => lookup mitems ("content")

/-- Backing dict `_store` of `InMemoryTTLCache`: key ↦ (insertion time, value).
The agent only ever stores the answer text, so values are strings. -/
def Store : Type := String → Option (ℚ × String)

/-- A store with no entries. -/
def emptyStore : Store := fun _ => none

namespace InMemoryTTLCache

/-- Model of `InMemoryTTLCache.get` (agent.py lines 84–99): return the stored
value if `now - ts < ttl`, else `None`; `now` is the value the injected clock
returns during this call.  A stored entry is a 2-tuple and hence never falsy,
so Python's `if not hit` is exactly the `none` test. -/
def get (ttl : ℚ) (store : Store) (key : String) (now : ℚ) : Option String :=
  match store key with
  | none => none
  | some (ts, val) => if now - ts < ttl then some val else none

/-- Model of `InMemoryTTLCache.set` (agent.py lines 101–108): unconditionally
overwrite the entry with a fresh timestamp from the injected clock. -/
def set (store : Store) (key : String) (val : String) (now : ℚ) : Store :=
  fun k => if k = key then some (now, val) else store k

end InMemoryTTLCache

/-- Outcome of one HTTP POST to the LLM endpoint, as observed by the retry
loop of `LLMClient.chat`: a transport timeout, a connection error, a non-2xx
status (surfacing via `raise_for_status`), or a decoded 2xx body. -/
inductive AttemptRes where
  | timeout
  | connError
  | httpErr (status : Nat)
  | ok (body : PyVal)

/-- The failures the `except (Timeout, ConnectionError)` clause catches. -/
def isTransient : AttemptRes → Bool
  | .timeout => true
  | .connError => true
  | _ => false

/-- Observable outcome of one `LLMClient.chat` call: the returned text or the
raised exception, the number of HTTP attempts performed, and the list of
`time.sleep` durations in order. -/
structure ChatOut where
  result : Except Exc String
  attempts : Nat
  sleeps : List ℚ

namespace LLMClient

/-- The retry loop of `LLMClient.chat` (agent.py lines 149–175).  `results n`
is the outcome of attempt `n`'s HTTP request; `attempt` is the loop variable
and `fuel` the number of remaining iterations of
`for attempt in range(1, max_retries + 1)`.  A transient failure sleeps
`backoff * attempt` and continues; an `HTTPError` and a payload failure are
re-raised; falling off the loop raises
`RuntimeError("LLM unavailable after retries")`. -/
def chatGo (backoff : ℚ) (results : Nat → AttemptRes) : Nat → Nat → ChatOut
  | _, 0 => ⟨.error (.runtimeErr ("LLM unavailable after retries")), 0, []⟩
  | attempt, fuel + 1 =>
    match results attempt with
    | .timeout =>
      let r := chatGo backoff results (attempt + 1) fuel
      ⟨r.result, r.attempts + 1, backoff * (attempt : ℚ) :: r.sleeps⟩
    | .connError =>
      let r := chatGo backoff results (attempt + 1) fuel
      ⟨r.result, r.attempts + 1, backoff * (attempt : ℚ) :: r.sleeps⟩
    | .httpErr status => ⟨.error (.httpStatusErr status), 1, []⟩
    | .ok body =>
      match extractContent body with
      | .ok content => ⟨.ok (pyStr content), 1, []⟩
      | .error e => ⟨.error e, 1, []⟩

/-- Model of `LLMClient.chat` (agent.py lines 124–175): run the retry loop
from attempt 1 with `max_retries` iterations available. -/
def chat (maxRetries : Nat) (backoff : ℚ) (results : Nat → AttemptRes) : ChatOut :=
  chatGo backoff results 1 maxRetries

end LLMClient

namespace WeatherClient

/-- Model of the payload validation of `WeatherClient.fetch` (agent.py lines
220–223): the decoded body must be a dict containing the keys `temp` and
`desc` (a presence check only), else `ValueError("Unexpected weather payload")`.
Transport and HTTP-status failures happen before this point and are modelled
as the `Except.error` weather environment of `WeatherAgent.answer`. -/
def fetchValidate (data : PyVal) : Except Exc PyVal :=
  match data with
  | .obj items =>
    if (lookup items ("temp")).isSome && (lookup items ("desc")).isSome then
      .ok (.obj items)
    else
      .error (.valueErr ("Unexpected weather payload"))
  | _ => .error (.valueErr ("Unexpected weather payload"))

end WeatherClient

/-- Spec-side reading of the weather payload invariant: the body is an object
in which both the `temp` and the `desc` field are present. -/
def SpecWeatherShape (data : PyVal) : Prop :=
  ∃ items, data = .obj items ∧
    (lookup items ("temp")).isSome = true ∧ (lookup items ("desc")).isSome = true

/-- Python `city or ""` (agent.py line 281): `answer`'s `city` argument may be
`None`; `None` coalesces to the empty string, a string passes through
(an empty string is falsy, and `"" or ""` is again the empty string). -/
def coalesce : Option String → String
  | none => ""
  | some s => s

namespace WeatherAgent

/-- Model of `WeatherAgent._cache_key` (agent.py line 259): `f"{city}:{units}"`. -/
def cache_key (city units : String) : String := city ++ ":" ++ units

/-- The prompt f-string built by `answer` (agent.py lines 292–297). -/
def buildPrompt (city units : String) (temp desc : PyVal) : String :=
  "Give a friendly 1-2 sentence weather update.\n" ++
  "City: " ++ city ++ "\n" ++
  "Temp (°" ++ (if units = "metric" then "C" else "F") ++ "): " ++ pyStr temp ++ "\n" ++
  "Description: " ++ pyStr desc ++ "\n"

/-- Observable outcome of one `WeatherAgent.answer` call: the returned text or
raised exception, the cache store afterwards, and how many times the weather
collaborator, the LLM collaborator and the cache's `get` were invoked. -/
structure AnswerOut where
  result : Except Exc String
  store : Store
  weatherCalls : Nat
  llmCalls : Nat
  cacheGets : Nat

/-- The cache-miss path of `WeatherAgent.answer` (agent.py lines 291–300):
fetch weather (any failure propagates, the LLM is not called and nothing is
cached), build the prompt from `w["temp"]` and `w["desc"]`, call the LLM
(any failure propagates, nothing is cached), then store the text under the
key and return it. -/
def answerMiss (weather : Except Exc PyVal) (llm : String → Except Exc String)
    (store : Store) (now : ℚ) (c units key : String) : AnswerOut :=
  match weather with
  | .error e => ⟨.error e, store, 1, 0, 1⟩
  | .ok w =>
    match subscriptKey w ("temp") with
    | .error e => ⟨.error e, store, 1, 0, 1⟩
    | .ok temp =>
      match subscriptKey w ("desc") with
      | .error e => ⟨.error e, store, 1, 0, 1⟩
      | .ok desc =>
        match llm (buildPrompt c units temp desc) with
        | .error e => ⟨.error e, store, 1, 1, 1⟩
        | .ok text => ⟨.ok text, InMemoryTTLCache.set store key text now, 1, 1, 1⟩

/-- Model of `WeatherAgent.answer` (agent.py lines 261–300).  `weather` is the
outcome `self.weather.fetch(city, units)` would produce on this call and
`llm p` the outcome of `self.llm.chat(p)`; `now` is the time the injected
clock returns during the call.  Note Python's `if cached:` truthiness test:
both `None` and a cached empty string fall through to the miss path. -/
def answer (ttl : ℚ) (weather : Except Exc PyVal) (llm : String → Except Exc String)
    (store : Store) (now : ℚ) (city : Option String) (units : String) : AnswerOut :=
  let c := pyStrip (coalesce city)
  if c = "" then
    ⟨.ok ("Please provide a valid city."), store, 0, 0, 0⟩
  else
    let key := cache_key c units
    match InMemoryTTLCache.get ttl store key now with
    | some cached =>
      if cached = "" then answerMiss weather llm store now c units key
      else ⟨.ok cached, store, 0, 0, 1⟩
    | none => answerMiss weather llm store now c units key

/-- The cache key `answer` actually computes (agent.py lines 281–285): the
city is coalesced and stripped first, the units string is used verbatim;
`none` when the stripped city is empty (the request short-circuits and no
key is computed). -/
def computedKey (city : Option String) (units : String) : Option String :=
  let c := pyStrip (coalesce city)
  if c = "" then none else some (cache_key c units)

end WeatherAgent

/-! ## Theorems -/

/-- C7: for every ttl > 0, a value stored by `InMemoryTTLCache.set` at clock
time `t` is returned by `InMemoryTTLCache.get` at every clock time in
`[t, t + ttl)` and is absent (`none`) at every clock time `≥ t + ttl`,
with the injected clock modelled by the explicit `now` samples. -/
theorem C7_cache_ttl_window (ttl t now : ℚ) (key val : String) (store : Store)
    (httl : 0 < ttl) :
    (t ≤ now → now < t + ttl →
      InMemoryTTLCache.get ttl (InMemoryTTLCache.set store key val t) key now = some val) ∧
    (t + ttl ≤ now →
      InMemoryTTLCache.get ttl (InMemoryTTLCache.set store key val t) key now = none) := by
  have hset : InMemoryTTLCache.set store key val t key = some (t, val) := by
    simp [InMemoryTTLCache.set]
  constructor
  · intro h1 h2
    unfold InMemoryTTLCache.get
    rw [hset]
    have hlt : now - t < ttl := by linarith
    simp [hlt]
  · intro h
    unfold InMemoryTTLCache.get
    rw [hset]
    have hge : ¬ (now - t < ttl) := by linarith
    simp [hge]

/-- Witness for C7: ttl = 60, insertion at t = 0, reads at 59 and at 60. -/
theorem C7_cache_ttl_window_witness :
    InMemoryTTLCache.get 60 (InMemoryTTLCache.set emptyStore ("k") ("v") 0) ("k") 59 =
      some ("v") ∧
    InMemoryTTLCache.get 60 (InMemoryTTLCache.set emptyStore ("k") ("v") 0) ("k") 60 =
      none :=
  ⟨(C7_cache_ttl_window 60 0 59 ("k") ("v") emptyStore (by norm_num)).1
      (by norm_num) (by norm_num),
   (C7_cache_ttl_window 60 0 60 ("k") ("v") emptyStore (by norm_num)).2 (by norm_num)⟩

/-- C9: a city that strips to the empty string makes `answer` return exactly
"Please provide a valid city." while leaving the store untouched and
performing zero cache lookups, zero weather calls and zero LLM calls. -/
theorem C9_blank_city_short_circuit (ttl now : ℚ) (weather : Except Exc PyVal)
    (llm : String → Except Exc String) (store : Store) (city units : String)
    (h : pyStrip city = "") :
    WeatherAgent.answer ttl weather llm store now (some city) units =
      ⟨.ok ("Please provide a valid city."), store, 0, 0, 0⟩ := by
  unfold WeatherAgent.answer
  simp [coalesce, h]

/-- Witness for C9 at the whitespace-only city `"   "`. -/
theorem C9_blank_city_short_circuit_witness :
    WeatherAgent.answer 60 (.error .timeoutErr) (fun _ => .error .timeoutErr)
        emptyStore 0 (some ("   ")) ("metric") =
      ⟨.ok ("Please provide a valid city."), emptyStore, 0, 0, 0⟩ :=
  C9_blank_city_short_circuit 60 0 (.error .timeoutErr) (fun _ => .error .timeoutErr)
    emptyStore ("   ") ("metric") (by decide)

/-- C10: `answer` is total on a `None` city: it behaves exactly like the
empty-city case — the fixed message, no cache lookup, no collaborator calls —
because `city or ""` coalesces `None` to the empty string before stripping. -/
theorem C10_none_city_total (ttl now : ℚ) (weather : Except Exc PyVal)
    (llm : String → Except Exc String) (store : Store) (units : String) :
    WeatherAgent.answer ttl weather llm store now none units =
      ⟨.ok ("Please provide a valid city."), store, 0, 0, 0⟩ := by
  unfold WeatherAgent.answer
  simp [coalesce, pyStrip]

/-- C8: on a cache miss (no entry stored under the computed key), a failure of
the weather fetch propagates unchanged out of `answer`: the identical
exception is raised, the LLM is never called, and the store — in particular
the computed key — is left exactly as it was. -/
theorem C8_weather_failure_propagates (ttl now : ℚ) (e : Exc)
    (llm : String → Except Exc String) (store : Store) (city units : String)
    (hc : pyStrip city ≠ "")
    (hm : InMemoryTTLCache.get ttl store
        (WeatherAgent.cache_key (pyStrip city) units) now = none) :
    WeatherAgent.answer ttl (.error e) llm store now (some city) units =
      ⟨.error e, store, 1, 0, 1⟩ := by
  unfold WeatherAgent.answer WeatherAgent.answerMiss
  simp [coalesce, hc, hm]

/-- Witness for C8: the spec's own scenario — weather upstream answers
HTTP 500 on an empty cache; `answer` propagates the `HTTPError`. -/
theorem C8_weather_failure_propagates_witness :
    WeatherAgent.answer 60 (.error (.httpStatusErr 500)) (fun _ => .ok ("unused"))
        emptyStore 0 (some ("Istanbul")) ("metric") =
      ⟨.error (.httpStatusErr 500), emptyStore, 1, 0, 1⟩ :=
  C8_weather_failure_propagates 60 0 (.httpStatusErr 500) (fun _ => .ok ("unused"))
    emptyStore ("Istanbul") ("metric") (by decide) (by rfl)

/-- C5 counterexample: the body `{"temp": null, "desc": null}` has both fields
present but null, so the claim demands `PayloadError`; the code's check is
presence-only and the fetch succeeds, returning the body unchanged. -/
theorem C5_null_fields_accepted_cex :
    WeatherClient.fetchValidate (.obj [(("temp"), .null), (("desc"), .null)]) =
      .ok (.obj [(("temp"), .null), (("desc"), .null)]) ∧
    lookup [(("temp"), PyVal.null), (("desc"), PyVal.null)] ("temp") = some .null :=
  ⟨rfl, rfl⟩

/-- Unfolding equation of `WeatherClient.fetchValidate` on an object body. -/
theorem fetchValidate_obj (items : List (String × PyVal)) :
    WeatherClient.fetchValidate (.obj items) =
      if ((lookup items ("temp")).isSome && (lookup items ("desc")).isSome) = true
      then .ok (.obj items)
      else .error (.valueErr ("Unexpected weather payload")) := rfl

/-- C5 amended: the fetch validation succeeds — returning the body
unchanged — exactly when the decoded body is an object with both the `temp`
and the `desc` key present (null values included), and in every other case
fails with `ValueError("Unexpected weather payload")`, the spec's
`PayloadError`. -/
theorem C5_presence_validation (data : PyVal) :
    (WeatherClient.fetchValidate data = .ok data ↔ SpecWeatherShape data) ∧
    (¬ SpecWeatherShape data →
      WeatherClient.fetchValidate data =
        .error (.valueErr ("Unexpected weather payload"))) := by
  have hshape : SpecWeatherShape data ↔
      ∃ items, data = .obj items ∧
        ((lookup items ("temp")).isSome && (lookup items ("desc")).isSome) = true := by
    unfold SpecWeatherShape
    simp [Bool.and_eq_true]
  constructor
  · rw [hshape]
    cases data with
    | obj items =>
      rw [fetchValidate_obj]
      by_cases h : ((lookup items ("temp")).isSome && (lookup items ("desc")).isSome) = true
      · rw [if_pos h]
        constructor
        · intro _
          exact ⟨items, rfl, h⟩
        · intro _
          rfl
      · rw [if_neg h]
        constructor
        · intro hcontra
          exact absurd hcontra (by simp)
        · rintro ⟨items', heq, hcond⟩
          injection heq with hh
          subst hh
          exact absurd hcond h
    | null => simp [WeatherClient.fetchValidate]
    | bool b => simp [WeatherClient.fetchValidate]
    | num n => simp [WeatherClient.fetchValidate]
    | str s => simp [WeatherClient.fetchValidate]
    | arr elems => simp [WeatherClient.fetchValidate]
  · rw [hshape]
    intro h
    cases data with
    | obj items =>
      rw [fetchValidate_obj, if_neg]
      intro hc
      exact h ⟨items, rfl, hc⟩
    | null => rfl
    | bool b => rfl
    | num n => rfl
    | str s => rfl
    | arr elems => rfl

/-- Witness for C5 amended at the non-object body `3`. -/
theorem C5_presence_validation_witness :
    WeatherClient.fetchValidate (.num 3) =
      .error (.valueErr ("Unexpected weather payload")) :=
  (C5_presence_validation (.num 3)).2 (by simp [SpecWeatherShape])

/-- C6 counterexample: adding leading whitespace to `units` changes the
computed cache key — the units string is never normalized. -/
theorem C6_units_whitespace_cex :
    WeatherAgent.computedKey (some ("Paris")) ("metric") = some ("Paris:metric") ∧
    WeatherAgent.computedKey (some ("Paris")) (" metric") = some ("Paris: metric") ∧
    ("Paris:metric" : String) ≠ ("Paris: metric") :=
  ⟨rfl, rfl, by decide⟩

/-- C6 amended: the computed cache key is invariant under leading or trailing
whitespace on the city — the city is stripped before the key is built — while
the units string enters the key verbatim. -/
theorem C6_key_city_trim_invariant (city1 city2 units : String)
    (h : pyStrip city1 = pyStrip city2) :
    WeatherAgent.computedKey (some city1) units =
      WeatherAgent.computedKey (some city2) units := by
  unfold WeatherAgent.computedKey
  simp [coalesce, h]

/-- Witness for C6 amended: `"Paris"` and `"  Paris "` yield the same key. -/
theorem C6_key_city_trim_invariant_witness :
    WeatherAgent.computedKey (some ("Paris")) ("metric") =
      WeatherAgent.computedKey (some ("  Paris ")) ("metric") :=
  C6_key_city_trim_invariant ("Paris") ("  Paris ") ("metric") (by decide)

/-- A transient failure at `attempt` sleeps `backoff * attempt` and moves the
loop on to the next iteration. -/
theorem chatGo_transient_step (backoff : ℚ) (results : Nat → AttemptRes)
    (attempt fuel : Nat) (h : isTransient (results attempt) = true) :
    LLMClient.chatGo backoff results attempt (fuel + 1) =
      ⟨(LLMClient.chatGo backoff results (attempt + 1) fuel).result,
       (LLMClient.chatGo backoff results (attempt + 1) fuel).attempts + 1,
       backoff * (attempt : ℚ) :: (LLMClient.chatGo backoff results (attempt + 1) fuel).sleeps⟩ := by
  cases hr : results attempt with
  | timeout => simp [LLMClient.chatGo, hr]
  | connError => simp [LLMClient.chatGo, hr]
  | httpErr status => rw [hr] at h; cases h
  | ok body => rw [hr] at h; cases h

/-- An HTTP error at `attempt` ends the loop at once: this attempt is counted,
no sleep happens, and the `HTTPError` is re-raised. -/
theorem chatGo_http_step (backoff : ℚ) (results : Nat → AttemptRes)
    (attempt fuel status : Nat) (h : results attempt = .httpErr status) :
    LLMClient.chatGo backoff results attempt (fuel + 1) =
      ⟨.error (.httpStatusErr status), 1, []⟩ := by
  simp [LLMClient.chatGo, h]

/-- When every attempt in the window fails transiently, the loop runs out of
fuel: no result, one counted attempt and one sleep `backoff * attempt` per
iteration, then the terminal `RuntimeError`. -/
theorem chatGo_all_transient (backoff : ℚ) (results : Nat → AttemptRes) :
    ∀ (fuel a : Nat), (∀ i, a ≤ i → i < a + fuel → isTransient (results i) = true) →
      LLMClient.chatGo backoff results a fuel =
        ⟨.error (.runtimeErr ("LLM unavailable after retries")), fuel,
         (List.range fuel).map fun (j : Nat) => backoff * ((a : ℚ) + (j : ℚ))⟩ := by
  intro fuel
  induction fuel with
  | zero =>
    intro a h
    rfl
  | succ fuel ih =>
    intro a h
    rw [chatGo_transient_step backoff results a fuel (h a (le_refl a) (by omega))]
    rw [ih (a + 1) (fun i h1 h2 => h i (by omega) (by omega))]
    simp only [ChatOut.mk.injEq, true_and]
    rw [List.range_succ_eq_map, List.map_cons, List.map_map]
    simp only [List.cons.injEq]
    constructor
    · push_cast
      ring
    · rw [List.map_eq_map_iff]
      intro j hj
      simp only [Function.comp_apply]
      push_cast
      ring

/-- C3: when every one of the `maxRetries` attempts fails with a transient
failure, `chat` performs exactly `maxRetries` attempts, sleeps
`backoffBase * n` after attempt `n` for n = 1, …, maxRetries, and then raises
`RuntimeError("LLM unavailable after retries")` — the spec's
`ExhaustedRetries`. -/
theorem C3_retries_exhausted (maxRetries : Nat) (backoff : ℚ)
    (results : Nat → AttemptRes)
    (h : ∀ i, 1 ≤ i → i ≤ maxRetries → isTransient (results i) = true) :
    LLMClient.chat maxRetries backoff results =
      ⟨.error (.runtimeErr ("LLM unavailable after retries")), maxRetries,
       (List.range maxRetries).map fun (j : Nat) => backoff * ((j : ℚ) + 1)⟩ := by
  unfold LLMClient.chat
  rw [chatGo_all_transient backoff results maxRetries 1 (fun i h1 h2 => h i h1 (by omega))]
  simp only [ChatOut.mk.injEq, true_and]
  rw [List.map_eq_map_iff]
  intro j hj
  push_cast
  ring

/-- Witness for C3: three attempts, all timeouts, backoff base 3/10. -/
theorem C3_retries_exhausted_witness :
    LLMClient.chat 3 (3/10) (fun _ => .timeout) =
      ⟨.error (.runtimeErr ("LLM unavailable after retries")), 3,
       (List.range 3).map fun (j : Nat) => (3/10 : ℚ) * ((j : ℚ) + 1)⟩ :=
  C3_retries_exhausted 3 (3/10) (fun _ => .timeout) (fun i _ _ => rfl)

/-- C2 counterexample: with `maxRetries = 3`, an HTTP 500 on attempt 1 ends
the call at once — one attempt performed, no backoff sleep, the `HTTPError`
re-raised — although the claim demands a backoff followed by attempt 2. -/
theorem C2_http_error_not_retried_cex :
    LLMClient.chat 3 (3/10) (fun _ => .httpErr 500) =
      ⟨.error (.httpStatusErr 500), 1, []⟩ ∧ (1 : Nat) < 3 :=
  ⟨rfl, by norm_num⟩

/-- After `k` transient attempts, an HTTP error on the next attempt ends the
loop with the `HTTPError` raised, `k + 1` attempts counted, and the `k`
transient sleeps as the only backoffs. -/
theorem chatGo_transient_then_http (backoff : ℚ) (results : Nat → AttemptRes)
    (status : Nat) :
    ∀ (k a fuel : Nat), k < fuel →
      (∀ i, a ≤ i → i < a + k → isTransient (results i) = true) →
      results (a + k) = .httpErr status →
      LLMClient.chatGo backoff results a fuel =
        ⟨.error (.httpStatusErr status), k + 1,
         (List.range k).map fun (j : Nat) => backoff * ((a : ℚ) + (j : ℚ))⟩ := by
  intro k
  induction k with
  | zero =>
    intro a fuel hk h hr
    obtain ⟨fuel, rfl⟩ : ∃ f, fuel = f + 1 := ⟨fuel - 1, by omega⟩
    rw [chatGo_http_step backoff results a fuel status (by simpa using hr)]
    rfl
  | succ k ih =>
    intro a fuel hk h hr
    obtain ⟨fuel, rfl⟩ : ∃ f, fuel = f + 1 := ⟨fuel - 1, by omega⟩
    rw [chatGo_transient_step backoff results a fuel (h a (le_refl a) (by omega))]
    rw [ih (a + 1) fuel (by omega) (fun i h1 h2 => h i (by omega) (by omega))
        (by rw [← hr]; congr 1; omega)]
    simp only [ChatOut.mk.injEq, true_and]
    rw [List.range_succ_eq_map, List.map_cons, List.map_map]
    simp only [List.cons.injEq]
    constructor
    · push_cast
      ring
    · rw [List.map_eq_map_iff]
      intro j hj
      simp only [Function.comp_apply]
      push_cast
      ring

/-- C2 amended: a non-2xx HTTP status from the LLM upstream is fatal, not
transient: if attempts 1, …, n-1 fail transiently and attempt n ≤ maxRetries
receives an HTTP error, `chat` re-raises that `HTTPError` at attempt n —
exactly n attempts performed, backoff sleeps only for the n-1 transient
attempts, and no attempt n+1. -/
theorem C2_http_error_fatal (maxRetries n status : Nat) (backoff : ℚ)
    (results : Nat → AttemptRes) (h1 : 1 ≤ n) (h2 : n ≤ maxRetries)
    (ht : ∀ i, 1 ≤ i → i < n → isTransient (results i) = true)
    (hr : results n = .httpErr status) :
    LLMClient.chat maxRetries backoff results =
      ⟨.error (.httpStatusErr status), n,
       (List.range (n - 1)).map fun (j : Nat) => backoff * (1 + (j : ℚ))⟩ := by
  unfold LLMClient.chat
  rw [chatGo_transient_then_http backoff results status (n - 1) 1 maxRetries (by omega)
      (fun i hi1 hi2 => ht i hi1 (by omega)) (by rw [← hr]; congr 1; omega)]
  have hn : n - 1 + 1 = n := by omega
  rw [hn]
  simp only [Nat.cast_one]

/-- Witness for C2 amended: a timeout on attempt 1, then HTTP 503 on
attempt 2 of 3 — the call stops after 2 attempts with one backoff sleep. -/
theorem C2_http_error_fatal_witness :
    LLMClient.chat 3 (3/10) (fun i => if i = 1 then .timeout else .httpErr 503) =
      ⟨.error (.httpStatusErr 503), 2,
       (List.range (2 - 1)).map fun (j : Nat) => (3/10 : ℚ) * (1 + (j : ℚ))⟩ :=
  C2_http_error_fatal 3 2 503 (3/10) (fun i => if i = 1 then .timeout else .httpErr 503)
    (by norm_num) (by norm_num)
    (fun i hi1 hi2 => by
      have hi : i = 1 := by omega
      subst hi
      rfl)
    rfl

/-- The Python subscript chain of `chat` succeeds exactly on the bodies whose
shape the spec describes (up to the `content` entry), and then both yield the
same `content` value. -/
theorem extractContent_ok_iff (body v : PyVal) :
    extractContent body = .ok v ↔ specContent body = some v := by
  cases body with
  | null => simp [extractContent, specContent, subscriptKey, asObj]
  | bool b => simp [extractContent, specContent, subscriptKey, asObj]
  | num n => simp [extractContent, specContent, subscriptKey, asObj]
  | str s => simp [extractContent, specContent, subscriptKey, asObj]
  | arr elems => simp [extractContent, specContent, subscriptKey, asObj]
  | obj items =>
    simp only [extractContent, specContent, subscriptKey, asObj, Option.some_bind]
    cases hc : lookup items ("choices") with
    | none => simp
    | some choices =>
      simp only [Option.some_bind]
      cases choices with
      | null => simp [subscriptZero, asArr]
      | bool b => simp [subscriptZero, asArr]
      | num n => simp [subscriptZero, asArr]
      | str s => cases hs : s.data <;> simp [subscriptZero, hs, asArr, subscriptKey]
      | obj citems => simp [subscriptZero, asArr]
      | arr elems =>
        cases elems with
        | nil => simp [subscriptZero, asArr]
        | cons c0 rest =>
          simp only [subscriptZero, asArr, Option.some_bind, List.head?_cons]
          cases c0 with
          | null => simp [subscriptKey, asObj]
          | bool b => simp [subscriptKey, asObj]
          | num n => simp [subscriptKey, asObj]
          | str s => simp [subscriptKey, asObj]
          | arr es => simp [subscriptKey, asObj]
          | obj citems =>
            simp only [subscriptKey, asObj, Option.some_bind]
            cases hm : lookup citems ("message") with
            | none => simp
            | some msg =>
              simp only [Option.some_bind]
              cases msg with
              | null => simp [subscriptKey, asObj]
              | bool b => simp [subscriptKey, asObj]
              | num n => simp [subscriptKey, asObj]
              | str s => simp [subscriptKey, asObj]
              | arr es => simp [subscriptKey, asObj]
              | obj mitems =>
                simp only [subscriptKey, asObj, Option.some_bind]
                cases hcon : lookup mitems ("content") with
                | none => simp
                | some c => simp

/-- C4 counterexample: a 2xx response whose `content` is the number 5 — not a
string — does not raise `PayloadError` as the claim demands: `chat` succeeds
on that same attempt and returns the coercion `str(5) = "5"`. -/
theorem C4_nonstring_content_cex :
    LLMClient.chat 3 (3/10)
        (fun _ => .ok (.obj [(("choices"),
          .arr [.obj [(("message"), .obj [(("content"), .num 5)])]])])) =
      ⟨.ok ("5"), 1, []⟩ ∧
    specContent (.obj [(("choices"),
        .arr [.obj [(("message"), .obj [(("content"), .num 5)])]])]) = some (.num 5) ∧
    ∀ s : String, PyVal.num 5 ≠ PyVal.str s :=
  ⟨rfl, rfl, fun s h => PyVal.noConfusion h⟩

/-- C4 amended: on an attempt whose HTTP status is successful, `chat` settles
on that very attempt — exactly one attempt, no backoff, no retry.  When the
decoded body is an object with a non-empty `choices` list whose first element
carries a `message` object with a `content` entry, the call returns
`str(content)` (the content itself when it is a string, its string coercion
otherwise — a non-string content is not rejected); for any other body shape
an exception is raised on that same attempt; in particular an object body
without a `choices` key raises `KeyError("choices")`, the spec's
`PayloadError`.  (An empty `choices` list or a non-object node instead
raises an uncaught `IndexError`/`TypeError`, not `PayloadError`.) -/
theorem C4_payload_validation (body : PyVal) (maxRetries : Nat) (backoff : ℚ)
    (h : 1 ≤ maxRetries) :
    (LLMClient.chat maxRetries backoff (fun _ => .ok body)).attempts = 1 ∧
    (LLMClient.chat maxRetries backoff (fun _ => .ok body)).sleeps = [] ∧
    (∀ v, specContent body = some v →
      (LLMClient.chat maxRetries backoff (fun _ => .ok body)).result = .ok (pyStr v)) ∧
    (specContent body = none →
      ∃ e, (LLMClient.chat maxRetries backoff (fun _ => .ok body)).result = .error e) ∧
    (∀ items, body = .obj items → lookup items ("choices") = none →
      (LLMClient.chat maxRetries backoff (fun _ => .ok body)).result =
        .error (.keyErr ("choices"))) := by
  obtain ⟨m, rfl⟩ : ∃ m, maxRetries = m + 1 := ⟨maxRetries - 1, by omega⟩
  have hchat : LLMClient.chat (m + 1) backoff (fun _ => .ok body) =
      match extractContent body with
      | .ok content => ⟨.ok (pyStr content), 1, []⟩
      | .error e => ⟨.error e, 1, []⟩ := by
    unfold LLMClient.chat
    simp only [LLMClient.chatGo]
  refine ⟨?_, ?_, ?_, ?_, ?_⟩
  · rw [hchat]
    cases hE : extractContent body <;> simp
  · rw [hchat]
    cases hE : extractContent body <;> simp
  · intro v hv
    rw [hchat, (extractContent_ok_iff body v).2 hv]
  · intro hn
    cases hE : extractContent body with
    | ok c =>
      have : specContent body = some c := (extractContent_ok_iff body c).1 hE
      rw [this] at hn
      cases hn
    | error e =>
      exact ⟨e, by rw [hchat, hE]⟩
  · intro items hb hl
    subst hb
    have hE : extractContent (.obj items) = .error (.keyErr ("choices")) := by
      simp [extractContent, subscriptKey, hl]
    rw [hchat, hE]

/-- Witness for C4 amended at the spec's own test body — an object without a
`choices` key — and maxRetries = 3. -/
theorem C4_payload_validation_witness :
    (LLMClient.chat 3 (3/10) (fun _ => .ok (.obj [(("id"), .str ("x"))]))).result =
      .error (.keyErr ("choices")) ∧
    (LLMClient.chat 3 (3/10) (fun _ => .ok (.obj [(("id"), .str ("x"))]))).attempts = 1 ∧
    (LLMClient.chat 3 (3/10) (fun _ => .ok (.obj [(("id"), .str ("x"))]))).sleeps = [] :=
  have h := C4_payload_validation (.obj [(("id"), .str ("x"))]) 3 (3/10) (by norm_num)
  ⟨h.2.2.2.2 [(("id"), .str ("x"))] rfl rfl, h.1, h.2.1⟩

/-- C1 counterexample: when the first (successful) call's answer text is the
empty string, the second call one second later — far inside ttl = 60 — is NOT
a pure cache hit: Python's `if cached:` is false for the cached `""`, so the
second call invokes the weather and the LLM collaborator again (two calls to
each combined, and the claim's "zero calls on the second request" fails). -/
theorem C1_empty_text_second_call_not_cached_cex :
    (WeatherAgent.answer 60
        (.ok (.obj [(("temp"), PyVal.num 18), (("desc"), PyVal.str ("clear"))]))
        (fun _ => .ok ("")) emptyStore 0 (some ("Istanbul")) ("metric")).result =
      .ok ("") ∧
    (WeatherAgent.answer 60
        (.ok (.obj [(("temp"), PyVal.num 18), (("desc"), PyVal.str ("clear"))]))
        (fun _ => .ok (""))
        (WeatherAgent.answer 60
          (.ok (.obj [(("temp"), PyVal.num 18), (("desc"), PyVal.str ("clear"))]))
          (fun _ => .ok ("")) emptyStore 0 (some ("Istanbul")) ("metric")).store
        1 (some ("Istanbul")) ("metric")).weatherCalls = 1 ∧
    (WeatherAgent.answer 60
        (.ok (.obj [(("temp"), PyVal.num 18), (("desc"), PyVal.str ("clear"))]))
        (fun _ => .ok (""))
        (WeatherAgent.answer 60
          (.ok (.obj [(("temp"), PyVal.num 18), (("desc"), PyVal.str ("clear"))]))
          (fun _ => .ok ("")) emptyStore 0 (some ("Istanbul")) ("metric")).store
        1 (some ("Istanbul")) ("metric")).llmCalls = 1 ∧
    ((1 : ℚ) - 0 < 60) := by
  have hstrip : pyStrip ("Istanbul") = ("Istanbul") := by decide
  have hne : ("Istanbul" : String) ≠ "" := by decide
  have h1 : WeatherAgent.answer 60
      (.ok (.obj [(("temp"), PyVal.num 18), (("desc"), PyVal.str ("clear"))]))
      (fun _ => .ok ("")) emptyStore 0 (some ("Istanbul")) ("metric") =
      ⟨.ok (""),
       InMemoryTTLCache.set emptyStore
         (WeatherAgent.cache_key ("Istanbul") ("metric")) ("") 0, 1, 1, 1⟩ := by
    unfold WeatherAgent.answer WeatherAgent.answerMiss
    simp [coalesce, hstrip, hne, InMemoryTTLCache.get, emptyStore, subscriptKey, lookup]
  have hget : InMemoryTTLCache.get 60
      (InMemoryTTLCache.set emptyStore
        (WeatherAgent.cache_key ("Istanbul") ("metric")) ("") 0)
      (WeatherAgent.cache_key ("Istanbul") ("metric")) 1 = some ("") := by
    unfold InMemoryTTLCache.get InMemoryTTLCache.set
    norm_num
  have h2 : WeatherAgent.answer 60
      (.ok (.obj [(("temp"), PyVal.num 18), (("desc"), PyVal.str ("clear"))]))
      (fun _ => .ok (""))
      (InMemoryTTLCache.set emptyStore
        (WeatherAgent.cache_key ("Istanbul") ("metric")) ("") 0)
      1 (some ("Istanbul")) ("metric") =
      ⟨.ok (""),
       InMemoryTTLCache.set
         (InMemoryTTLCache.set emptyStore
           (WeatherAgent.cache_key ("Istanbul") ("metric")) ("") 0)
         (WeatherAgent.cache_key ("Istanbul") ("metric")) ("") 1, 1, 1, 1⟩ := by
    unfold WeatherAgent.answer WeatherAgent.answerMiss
    simp [coalesce, hstrip, hne, hget, subscriptKey, lookup]
  exact ⟨congrArg WeatherAgent.AnswerOut.result h1,
    congrArg WeatherAgent.AnswerOut.weatherCalls h2,
    congrArg WeatherAgent.AnswerOut.llmCalls h2, by norm_num⟩

/-- C1 amended: starting from an empty cache, if the first `answer` call for a
valid city succeeds with a NON-EMPTY text, then a second call within the TTL
with an identically-normalized city and the same units string is a pure cache
hit: it returns the cached text and performs zero weather and zero LLM calls,
so the two calls combined invoke each collaborator exactly once.  (The
non-empty proviso is forced by the `if cached:` truthiness test.) -/
theorem C1_cache_hit_single_upstream
    (ttl t1 t2 : ℚ) (city1 city2 units text : String) (w : PyVal)
    (weather2 : Except Exc PyVal) (llm1 llm2 : String → Except Exc String)
    (hcity : pyStrip city1 ≠ "")
    (hcity2 : pyStrip city2 = pyStrip city1)
    (htemp : ∃ tv, subscriptKey w ("temp") = .ok tv)
    (hdesc : ∃ dv, subscriptKey w ("desc") = .ok dv)
    (hllm : ∀ p, llm1 p = .ok text)
    (htext : text ≠ "")
    (httl : t2 - t1 < ttl) :
    ∃ store1,
      WeatherAgent.answer ttl (.ok w) llm1 emptyStore t1 (some city1) units =
        ⟨.ok text, store1, 1, 1, 1⟩ ∧
      WeatherAgent.answer ttl weather2 llm2 store1 t2 (some city2) units =
        ⟨.ok text, store1, 0, 0, 1⟩ := by
  obtain ⟨tv, htv⟩ := htemp
  obtain ⟨dv, hdv⟩ := hdesc
  refine ⟨InMemoryTTLCache.set emptyStore
      (WeatherAgent.cache_key (pyStrip city1) units) text t1, ?_, ?_⟩
  · unfold WeatherAgent.answer WeatherAgent.answerMiss
    simp [coalesce, hcity, InMemoryTTLCache.get, emptyStore, htv, hdv, hllm]
  · have hget : InMemoryTTLCache.get ttl
        (InMemoryTTLCache.set emptyStore
          (WeatherAgent.cache_key (pyStrip city1) units) text t1)
        (WeatherAgent.cache_key (pyStrip city1) units) t2 = some text := by
      unfold InMemoryTTLCache.get InMemoryTTLCache.set
      simp [httl]
    have hc2 : ¬ (pyStrip city2 = "") := by
      rw [hcity2]
      exact hcity
    unfold WeatherAgent.answer
    simp [coalesce, hcity2, hc2, hcity, hget, htext]

/-- Witness for C1 amended: Istanbul in metric units, ttl = 60, first call at
t = 0, second call at t = 30 with a differently-whitespaced city. -/
theorem C1_cache_hit_single_upstream_witness :
    ∃ store1,
      WeatherAgent.answer 60
          (.ok (.obj [(("temp"), PyVal.num 18), (("desc"), PyVal.str ("clear"))]))
          (fun _ => .ok ("A clear 18 C day.")) emptyStore 0
          (some ("Istanbul")) ("metric") =
        ⟨.ok ("A clear 18 C day."), store1, 1, 1, 1⟩ ∧
      WeatherAgent.answer 60 (.error .timeoutErr)
          (fun _ => .ok ("other")) store1 30 (some (" Istanbul ")) ("metric") =
        ⟨.ok ("A clear 18 C day."), store1, 0, 0, 1⟩ :=
  C1_cache_hit_single_upstream 60 0 30 ("Istanbul") (" Istanbul ") ("metric")
    ("A clear 18 C day.")
    (.obj [(("temp"), PyVal.num 18), (("desc"), PyVal.str ("clear"))])
    (.error .timeoutErr) (fun _ => .ok ("A clear 18 C day.")) (fun _ => .ok ("other"))
    (by decide) (by decide) ⟨.num 18, rfl⟩ ⟨.str ("clear"), rfl⟩
    (fun p => rfl) (by decide) (by norm_num)

end Agent
